import Mathlib

/-
Shallow embedding of the BuildaroQ VAT calculation core.

The repository re-implements the same VAT/line-item aggregation in several
places; the claims concern

  * the invoice PDF route (`calcTotals` and its helpers `round2`,
    `isZeroVatType`, `resolveVatRate`),
  * the quotes list page (`toNumber`, `resolveVatRate`,
    `calcTotalFromItems`),
  * the quote detail page (`resolveVatRate` and the page-level totals loop),
  * the invoice detail page (`computeVatBreakdown`),
  * the quote PDF route (its raw `subtotal` reduce),
  * the dashboard (`calcTotals` on a pre-computed subtotal).

JavaScript numbers are modelled as exact rationals (ℚ).  `Math.round`
rounds half-way cases toward +∞, i.e. `Math.round(x) = ⌊x + 1/2⌋`, and
`Number.EPSILON = 2 ^ (-52)` is carried as an exact rational.  A numeric
field of a record coming from the database can hold a non-numeric value;
such a value is modelled by the constructor `JsVal.nan` (anything whose
numeric coercion is NaN or ±∞), next to finite numbers, `null` and
`undefined`.
-/

namespace Buildaroq

/-- Model of a JavaScript value sitting in a numeric field: a finite number,
a value whose numeric coercion is not finite (NaN, ±Infinity, a non-numeric
string, ...), `null`, or `undefined`. -/
inductive JsVal where
  | num : ℚ → JsVal
  | nan : JsVal
  | null : JsVal
  | undef : JsVal
deriving DecidableEq

/-- Model of the built-in coercion `Number(v)` composed with the
`Number.isFinite` test used right after it: `some q` when `Number(v)` is the
finite number `q`, `none` when it is NaN or infinite.  In JavaScript
`Number(null) = 0` while `Number(undefined) = NaN`. -/
def jsNumber : JsVal → Option ℚ
  | .num q => some q
  | .nan => none
  | .null => some 0
  | .undef => none

/-- Helper `toNumber` shared verbatim by the quotes list page, the quote PDF
route and both detail pages: a number is returned as is (NaN included), a
non-blank string is passed to `Number`, and anything else — `null` and
`undefined` included — becomes 0.  As with `jsNumber`, `some q` means the
result is the finite number `q` and `none` means it is not finite. -/
def toNumber : JsVal → Option ℚ
  | .num q => some q
  | .nan => none
  | .null => some 0
  | .undef => some 0

/-- Rounding helper `round2`, defined identically in every file:
`Math.round((n + Number.EPSILON) * 100) / 100`.  `Math.round(x)` is
`⌊x + 1/2⌋` (ties toward +∞). -/
def round2 (n : ℚ) : ℚ := (⌊(n + 1 / 2 ^ 52) * 100 + 1 / 2⌋ : ℚ) / 100

/-- Predicate `isZeroVatType`, defined identically in the invoice PDF route,
the quotes list page and the quote detail page: the three reverse-charge /
out-of-scope treatments. -/
def isZeroVatType (vatType : String) : Bool :=
  vatType == "NL_REVERSE_CHARGE" || vatType == "EU_B2B_REVERSE_CHARGE" ||
    vatType == "NON_EU_OUTSIDE_SCOPE"

/-- Modelled from the spec's words (§4.1 and the rounding policy): rounding
half away from zero at 2 decimal places.  Used only to compare `round2`
against the specified rounding rule. -/
def round2HalfAwayFromZero (n : ℚ) : ℚ :=
  if 0 ≤ n then (⌊n * 100 + 1 / 2⌋ : ℚ) / 100
  else -((⌊(-n) * 100 + 1 / 2⌋ : ℚ) / 100)

/-- Row of the per-rate accumulator map and of the resulting breakdown:
`{ rate, base, vat }`. -/
structure Row where
  rate : ℚ
  base : ℚ
  vat : ℚ
deriving DecidableEq

/-- One step of the `Map`-backed per-rate accumulation used by the invoice
PDF route, the quote detail page and the invoice detail page: if no entry
with this exact `rate` key exists, an entry `{base: 0, vat: 0}` is appended
at the end (insertion order), and then the entry's fields are updated to
`round2(base + net)` and `round2(vat + vat')`. -/
def updateRow (rate net vat : ℚ) : List Row → List Row
  | [] => [⟨rate, round2 (0 + net), round2 (0 + vat)⟩]
  | r :: rs =>
    if r.rate = rate then ⟨rate, round2 (r.base + net), round2 (r.vat + vat)⟩ :: rs
    else r :: updateRow rate net vat rs

/-- Insertion of a row into a list sorted ascending by rate. -/
def insertRow (r : Row) : List Row → List Row
  | [] => [r]
  | x :: xs => if r.rate ≤ x.rate then r :: x :: xs else x :: insertRow r xs

/-- Model of `Array.from(map.entries()).sort((a, b) => a[0] - b[0])`: the
rows sorted ascending by rate (the map's keys are pairwise distinct, so any
correct sort produces this list). -/
def sortRows (rows : List Row) : List Row := rows.foldr insertRow []

/-- Model of `rows.reduce((s, r) => s + r.vat, 0)`. -/
def reduceVat (rows : List Row) : ℚ := rows.foldl (fun s r => s + r.vat) 0

end Buildaroq

namespace Buildaroq.InvoicePdf

/-- Dutch notice string pushed for lines with `NL_REVERSE_CHARGE`. -/
def noticeReverseNl : String := "BTW verlegd (onderaanneming/bouw)."

/-- Dutch notice string pushed for lines with `EU_B2B_REVERSE_CHARGE`. -/
def noticeReverseEu : String := "BTW verlegd – intracommunautaire dienst (EU B2B)."

/-- Dutch notice string pushed for lines with `NON_EU_OUTSIDE_SCOPE`. -/
def noticeOutsideEu : String := "Plaats van dienst buiten Nederland (buiten EU)."

/-- Input line of the invoice PDF route's `calcTotals`:
`{ qty, unit_price, vat_type?, vat_rate? }`.  `vat_type` is `none` for
`null`/missing, and `vat_rate` is an arbitrary JS value (`unknown`). -/
structure Line where
  qty : JsVal
  unit_price : JsVal
  vat_type : Option String
  vat_rate : JsVal
deriving DecidableEq

/-- Function `resolveVatRate` of the invoice PDF route: zero VAT types give
0; otherwise `r = typeof vatRate === "number" ? vatRate : Number(vatRate)`
is returned when finite and ≥ 0; otherwise 9 for NL_9_WONING and 21 for
everything else.  Both arms of the `typeof` conditional produce a finite
number exactly when `jsNumber` does. -/
def resolveVatRate (vatType : String) (vatRate : JsVal) : ℚ :=
  if isZeroVatType vatType then 0
  else
    match jsNumber vatRate with
    | some r => if 0 ≤ r then r else if vatType == "NL_9_WONING" then 9 else 21
    | none => if vatType == "NL_9_WONING" then 9 else 21

/-- Loop state of `calcTotals`: running subtotal, the per-rate accumulator
map in insertion order, and the three notice flags. -/
structure CalcState where
  subtotal : ℚ
  rows : List Row
  hasReverseNl : Bool
  hasReverseEu : Bool
  hasOutsideEu : Bool
deriving DecidableEq

/-- Body of the `for (const l of lines)` loop of `calcTotals`: lines whose
quantity or unit price does not coerce to a finite number are skipped
(`continue`); otherwise the rounded net amount is accumulated into the
subtotal, the notice flags are updated from the line's VAT type, and the
per-rate map entry receives the rounded base and VAT. -/
def step (st : CalcState) (l : Line) : CalcState :=
  match jsNumber l.qty, jsNumber l.unit_price with
  | some qty, some unitPrice =>
    let net := round2 (qty * unitPrice)
    let vatType := l.vat_type.getD "NL_21"
    let rate := resolveVatRate vatType l.vat_rate
    ⟨round2 (st.subtotal + net),
      updateRow rate net (round2 (net * (rate / 100))) st.rows,
      st.hasReverseNl || vatType == "NL_REVERSE_CHARGE",
      st.hasReverseEu || vatType == "EU_B2B_REVERSE_CHARGE",
      st.hasOutsideEu || vatType == "NON_EU_OUTSIDE_SCOPE"⟩
  | _, _ => st

/-- Output record of `calcTotals`:
`{ subtotal, vat_amount, total, vat_breakdown, notices }`. -/
structure Totals where
  subtotal : ℚ
  vat_amount : ℚ
  total : ℚ
  vat_breakdown : List Row
  notices : List String
deriving DecidableEq

/-- Function `calcTotals` of the invoice PDF route.  The VAT amount is
`round2` of the reduce over the map's values in insertion order, the total
is `round2(subtotal + vat_amount)`, the breakdown is the map's entries
sorted ascending by rate, and the notices are pushed in the fixed order
NL reverse charge, EU reverse charge, outside EU. -/
def calcTotals (lines : List Line) : Totals :=
  let st := lines.foldl step ⟨0, [], false, false, false⟩
  let vat_amount := round2 (reduceVat st.rows)
  let total := round2 (st.subtotal + vat_amount)
  let notices :=
    (if st.hasReverseNl then [noticeReverseNl] else []) ++
      (if st.hasReverseEu then [noticeReverseEu] else []) ++
      (if st.hasOutsideEu then [noticeOutsideEu] else [])
  ⟨st.subtotal, vat_amount, total, sortRows st.rows, notices⟩

end Buildaroq.InvoicePdf

namespace Buildaroq.QuotesList

/-- Row of the quotes list page's item query:
`{ quote_id, qty, unit_price, vat_type, vat_rate }`, all numeric fields
possibly string-typed or null. -/
structure QuoteItemRow where
  quote_id : String
  qty : JsVal
  unit_price : JsVal
  vat_type : Option String
  vat_rate : JsVal
deriving DecidableEq

/-- Function `resolveVatRate` of the quotes list page: zero VAT types give
0; otherwise `r = toNumber(vatRate)` is returned when finite and ≥ 0
(`toNumber` maps `null` and `undefined` to 0); otherwise 9 for NL_9_WONING
and the caller-supplied `defaultVatRate` (21 at the call site) for
everything else. -/
def resolveVatRate (vatType : String) (vatRate : JsVal) (defaultVatRate : ℚ) : ℚ :=
  if isZeroVatType vatType then 0
  else
    match toNumber vatRate with
    | some r => if 0 ≤ r then r else if vatType == "NL_9_WONING" then 9 else defaultVatRate
    | none => if vatType == "NL_9_WONING" then 9 else defaultVatRate

/-- Totals record returned by `calcTotalFromItems`. -/
structure ItemTotals where
  subtotal : ℚ
  vatAmount : ℚ
  total : ℚ
deriving DecidableEq

/-- Body of the `for (const it of items)` loop of `calcTotalFromItems` on the
running pair (subtotal, vatAmount): items whose quantity or unit price is
not finite after `toNumber` are skipped. -/
def itemStep (st : ℚ × ℚ) (it : QuoteItemRow) : ℚ × ℚ :=
  match toNumber it.qty, toNumber it.unit_price with
  | some qty, some price =>
    let net := round2 (qty * price)
    let rate := resolveVatRate (it.vat_type.getD "NL_21") it.vat_rate 21
    ⟨round2 (st.1 + net), round2 (st.2 + round2 (net * (rate / 100)))⟩
  | _, _ => st

/-- Function `calcTotalFromItems` of the quotes list page. -/
def calcTotalFromItems (items : List QuoteItemRow) : ItemTotals :=
  let p := items.foldl itemStep ⟨0, 0⟩
  ⟨p.1, p.2, round2 (p.1 + p.2)⟩

end Buildaroq.QuotesList

namespace Buildaroq.QuoteDetail

/-- Quote line item of the quote detail page:
`{ qty, unit_price, vat_type, vat_rate }` with numeric `qty`/`unit_price`,
nullable `vat_type` and nullable snapshot `vat_rate`. -/
structure QuoteItem where
  qty : ℚ
  unit_price : ℚ
  vat_type : Option String
  vat_rate : Option ℚ
deriving DecidableEq

/-- Function `resolveVatRate` of the quote detail page: zero VAT types give
0; a present numeric `vatRate` that is finite and ≥ 0 is returned (a `null`
fails the `typeof` test and falls through); otherwise 9 for NL_9_WONING,
else the `defaultVatRate` fallback (the final `Number.isFinite(
defaultVatRate)` guard always holds for a rational-modelled number). -/
def resolveVatRate (vatType : String) (vatRate : Option ℚ) (defaultVatRate : ℚ) : ℚ :=
  if isZeroVatType vatType then 0
  else
    match vatRate with
    | some r => if 0 ≤ r then r else if vatType == "NL_9_WONING" then 9 else defaultVatRate
    | none => if vatType == "NL_9_WONING" then 9 else defaultVatRate

/-- Loop state of the quote detail page's totals loop: running subtotal, the
per-rate `vatMap` in insertion order, and the three notice flags. -/
structure PageState where
  subtotal : ℚ
  rows : List Row
  hasReverseNl : Bool
  hasReverseEu : Bool
  hasOutsideEu : Bool
deriving DecidableEq

/-- Body of the `for (const it of items)` loop of the quote detail page
(there is no finiteness skip here: `qty` and `unit_price` are typed
numbers). -/
def step (defaultVatRate : ℚ) (st : PageState) (it : QuoteItem) : PageState :=
  let net := round2 (it.qty * it.unit_price)
  let vatType := it.vat_type.getD "NL_21"
  let rate := resolveVatRate vatType it.vat_rate defaultVatRate
  ⟨round2 (st.subtotal + net),
    updateRow rate net (round2 (net * (rate / 100))) st.rows,
    st.hasReverseNl || vatType == "NL_REVERSE_CHARGE",
    st.hasReverseEu || vatType == "EU_B2B_REVERSE_CHARGE",
    st.hasOutsideEu || vatType == "NON_EU_OUTSIDE_SCOPE"⟩

/-- Aggregated values computed inline by the quote detail page:
`subtotal`, `vatAmount`, `total`, the sorted `vatBreakdown` and the
`notices` list. -/
structure PageTotals where
  subtotal : ℚ
  vatAmount : ℚ
  total : ℚ
  vatBreakdown : List Row
  notices : List String
deriving DecidableEq

/-- The quote detail page's totals computation (section "5) Totals" of the
page): per-line accumulation, breakdown sorted ascending by rate,
`vatAmount = round2(vatBreakdown.reduce((s, r) => s + r.vat, 0))` over the
sorted rows, `total = round2(subtotal + vatAmount)`, and the notices pushed
in the fixed order NL reverse charge, EU reverse charge, outside EU (the
same Dutch strings as the invoice PDF route). -/
def pageTotals (items : List QuoteItem) (defaultVatRate : ℚ) : PageTotals :=
  let st := items.foldl (step defaultVatRate) ⟨0, [], false, false, false⟩
  let vatBreakdown := sortRows st.rows
  let vatAmount := round2 (reduceVat vatBreakdown)
  let total := round2 (st.subtotal + vatAmount)
  let notices :=
    (if st.hasReverseNl then [InvoicePdf.noticeReverseNl] else []) ++
      (if st.hasReverseEu then [InvoicePdf.noticeReverseEu] else []) ++
      (if st.hasOutsideEu then [InvoicePdf.noticeOutsideEu] else [])
  ⟨st.subtotal, vatAmount, total, vatBreakdown, notices⟩

end Buildaroq.QuoteDetail

namespace Buildaroq.InvoiceDetail

/-- Invoice line item of the invoice detail page:
`{ qty, unit_price, vat_rate, vat_type? }`; `vat_rate` is the nullable
snapshot percentage and `vat_type` an optional treatment tag that
`computeVatBreakdown` never reads. -/
structure InvoiceItem where
  qty : JsVal
  unit_price : JsVal
  vat_rate : Option ℚ
  vat_type : Option String
deriving DecidableEq

/-- Result record of `computeVatBreakdown`:
`{ baseSubtotal, grossTotal, vatTotal, breakdown }`. -/
structure BreakdownResult where
  baseSubtotal : ℚ
  grossTotal : ℚ
  vatTotal : ℚ
  breakdown : List Row
deriving DecidableEq

/-- Body of the `for (const it of items)` loop of `computeVatBreakdown`:
the effective rate is `it.vat_rate ?? defaultVatRate`; items whose quantity
or unit price does not coerce to a finite number are skipped; the line
amount is split into base and VAT according to `pricesIncludeVat`, and
base/gross/per-rate accumulators are updated with `round2` after every
addition.  The state is (baseSubtotal, grossTotal, perRate rows). -/
def step (defaultVatRate : ℚ) (pricesIncludeVat : Bool) (st : ℚ × ℚ × List Row)
    (it : InvoiceItem) : ℚ × ℚ × List Row :=
  let rate := it.vat_rate.getD defaultVatRate
  match jsNumber it.qty, jsNumber it.unit_price with
  | some qty, some unitPrice =>
    let line := round2 (qty * unitPrice)
    if pricesIncludeVat then
      let divisor := 1 + rate / 100
      let base := round2 (line / divisor)
      let vat := round2 (line - base)
      ⟨round2 (st.1 + base), round2 (st.2.1 + line), updateRow rate base vat st.2.2⟩
    else
      let base := round2 line
      let vat := round2 (base * (rate / 100))
      let gross := round2 (base + vat)
      ⟨round2 (st.1 + base), round2 (st.2.1 + gross), updateRow rate base vat st.2.2⟩
  | _, _ => st

/-- Function `computeVatBreakdown` of the invoice detail page: groups VAT
per rate and handles inclusive/exclusive prices; the breakdown is the
per-rate map sorted ascending by rate and
`vatTotal = round2(breakdown.reduce((s, r) => s + r.vat, 0))`. -/
def computeVatBreakdown (items : List InvoiceItem) (defaultVatRate : ℚ)
    (pricesIncludeVat : Bool) : BreakdownResult :=
  let st := items.foldl (step defaultVatRate pricesIncludeVat) ⟨0, 0, []⟩
  let breakdown := sortRows st.2.2
  let vatTotal := round2 (reduceVat breakdown)
  ⟨st.1, st.2.1, vatTotal, breakdown⟩

end Buildaroq.InvoiceDetail

namespace Buildaroq.Dashboard

/-- Totals record returned by the dashboard's `calcTotals`. -/
structure DashTotals where
  subtotal : ℚ
  vatAmount : ℚ
  total : ℚ
deriving DecidableEq

/-- Function `calcTotals` of the dashboard page: a non-positive subtotal
short-circuits to zero VAT and zero total; otherwise a single document-wide
rate is applied inclusively or exclusively, without rounding. -/
def calcTotals (subtotal vatRate : ℚ) (pricesIncludeVat : Bool) : DashTotals :=
  if subtotal ≤ 0 then ⟨subtotal, 0, 0⟩
  else if pricesIncludeVat then
    let divisor := 1 + vatRate / 100
    let net := subtotal / divisor
    ⟨subtotal, subtotal - net, subtotal⟩
  else
    let vatAmount := subtotal * (vatRate / 100)
    ⟨subtotal, vatAmount, subtotal + vatAmount⟩

end Buildaroq.Dashboard

namespace Buildaroq.QuotePdf

/-- Mapped quote item of the quote PDF route after its `toNumber`
normalization: `{ qty, unit_price }`. -/
structure PdfItem where
  qty : ℚ
  unit_price : ℚ
deriving DecidableEq

/-- The quote PDF route's subtotal:
`items.reduce((sum, it) => sum + it.qty * it.unit_price, 0)` — a raw sum of
the line amounts with no rounding at all. -/
def subtotal (items : List PdfItem) : ℚ :=
  items.foldl (fun sum it => sum + it.qty * it.unit_price) 0

end Buildaroq.QuotePdf

namespace Buildaroq

/-- Definitions used only in theorem statements: whether a line of the
invoice PDF route survives the finiteness skip. -/
def goodLine (l : InvoicePdf.Line) : Bool :=
  (jsNumber l.qty).isSome && (jsNumber l.unit_price).isSome

/-- Whether a line of the invoice PDF route survives the finiteness skip and
carries the given VAT type (after the `?? "NL_21"` default). -/
def lineTriggers (t : String) (l : InvoicePdf.Line) : Bool :=
  goodLine l && (l.vat_type.getD "NL_21" == t)

/-- Whether a quote detail page item carries the given VAT type (after the
`?? "NL_21"` default); there is no finiteness skip on that page. -/
def itemTriggers (t : String) (it : QuoteDetail.QuoteItem) : Bool :=
  it.vat_type.getD "NL_21" == t

theorem insertRow_perm (r : Row) (l : List Row) : (insertRow r l).Perm (r :: l) := by
  induction l with
  | nil => exact List.Perm.refl _
  | cons x xs ih =>
    by_cases h : r.rate ≤ x.rate
    · simp [insertRow, h]
    · simp only [insertRow, h, if_false]
      exact ((ih.cons x).trans (List.Perm.swap r x xs))

theorem sortRows_perm (l : List Row) : (sortRows l).Perm l := by
  induction l with
  | nil => exact List.Perm.refl _
  | cons x xs ih =>
    exact (insertRow_perm x (sortRows xs)).trans (ih.cons x)

theorem foldl_add_vat (l : List Row) (a : ℚ) :
    l.foldl (fun s r => s + r.vat) a = a + (l.map Row.vat).sum := by
  induction l generalizing a with
  | nil => simp
  | cons x xs ih => simp [List.foldl, ih, add_assoc]

theorem reduceVat_eq_sum (l : List Row) : reduceVat l = (l.map Row.vat).sum := by
  simpa using foldl_add_vat l 0

theorem sum_vat_sortRows (l : List Row) :
    ((sortRows l).map Row.vat).sum = (l.map Row.vat).sum :=
  ((sortRows_perm l).map Row.vat).sum_eq

theorem mem_triple_left {α : Type} (p q r : Bool) (a b c : α) (hab : a ≠ b) (hac : a ≠ c) :
    a ∈ ((if p then [a] else []) ++ (if q then [b] else []) ++ (if r then [c] else [])) ↔
      p = true := by
  cases p <;> cases q <;> cases r <;> simp [hab, hac]

theorem mem_triple_mid {α : Type} (p q r : Bool) (a b c : α) (hba : b ≠ a) (hbc : b ≠ c) :
    b ∈ ((if p then [a] else []) ++ (if q then [b] else []) ++ (if r then [c] else [])) ↔
      q = true := by
  cases p <;> cases q <;> cases r <;> simp [hba, hbc]

theorem mem_triple_right {α : Type} (p q r : Bool) (a b c : α) (hca : c ≠ a) (hcb : c ≠ b) :
    c ∈ ((if p then [a] else []) ++ (if q then [b] else []) ++ (if r then [c] else [])) ↔
      r = true := by
  cases p <;> cases q <;> cases r <;> simp [hca, hcb]

theorem sublist_triple {α : Type} (p q r : Bool) (a b c : α) :
    ((if p then [a] else []) ++ (if q then [b] else []) ++ (if r then [c] else [])).Sublist
      [a, b, c] := by
  cases p <;> cases q <;> cases r <;> simp

theorem floor_natCast_div_ten_add (n : ℕ) (δ : ℚ) (h0 : 0 ≤ δ) (h1 : δ < 1 / 10) :
    ⌊(n : ℚ) / 10 + δ⌋ = ((n / 10 : ℕ) : ℤ) := by
  have hmod : (n % 10 : ℕ) ≤ 9 := by omega
  have hmodq : ((n % 10 : ℕ) : ℚ) ≤ 9 := by exact_mod_cast hmod
  have hmodq0 : (0 : ℚ) ≤ ((n % 10 : ℕ) : ℚ) := by positivity
  have hsplit : ((n : ℚ)) = 10 * ((n / 10 : ℕ) : ℚ) + ((n % 10 : ℕ) : ℚ) := by
    exact_mod_cast congrArg (Nat.cast : ℕ → ℚ) (Nat.div_add_mod n 10).symm
  have hdiv : (n : ℚ) / 10 = ((n / 10 : ℕ) : ℚ) + ((n % 10 : ℕ) : ℚ) / 10 := by
    rw [hsplit]; ring
  have hq : ((((n / 10 : ℕ) : ℤ)) : ℚ) = ((n / 10 : ℕ) : ℚ) := by norm_cast
  rw [Int.floor_eq_iff, hq]
  constructor
  · linarith
  · linarith

end Buildaroq

namespace Buildaroq

theorem invoicePdf_step_skip (st : InvoicePdf.CalcState) (l : InvoicePdf.Line)
    (h : jsNumber l.qty = none ∨ jsNumber l.unit_price = none) :
    InvoicePdf.step st l = st := by
  rcases h with h | h
  · simp [InvoicePdf.step, h]
  · rcases hq : jsNumber l.qty with _ | q <;> simp [InvoicePdf.step, hq, h]

theorem invoicePdf_foldl_subtotal (lines : List InvoicePdf.Line) (st : InvoicePdf.CalcState) :
    (List.foldl InvoicePdf.step st lines).subtotal =
      List.foldl
        (fun s l =>
          round2 (s + round2 ((jsNumber l.qty).getD 0 * (jsNumber l.unit_price).getD 0)))
        st.subtotal (lines.filter goodLine) := by
  induction lines generalizing st with
  | nil => rfl
  | cons l ls ih =>
    rcases hq : jsNumber l.qty with _ | q
    · have hstep : InvoicePdf.step st l = st := invoicePdf_step_skip st l (Or.inl hq)
      have hgood : goodLine l = false := by simp [goodLine, hq]
      simp only [List.foldl_cons, hstep, List.filter_cons, hgood, Bool.false_eq_true,
        if_false, ih]
    · rcases hp : jsNumber l.unit_price with _ | p
      · have hstep : InvoicePdf.step st l = st := invoicePdf_step_skip st l (Or.inr hp)
        have hgood : goodLine l = false := by simp [goodLine, hq, hp]
        simp only [List.foldl_cons, hstep, List.filter_cons, hgood, Bool.false_eq_true,
          if_false, ih]
      · have hgood : goodLine l = true := by simp [goodLine, hq, hp]
        simp only [List.foldl_cons, List.filter_cons, hgood, if_true, ih]
        congr 1
        simp [InvoicePdf.step, hq, hp]

theorem invoicePdf_foldl_hasReverseNl (lines : List InvoicePdf.Line)
    (st : InvoicePdf.CalcState) :
    (List.foldl InvoicePdf.step st lines).hasReverseNl =
      (st.hasReverseNl || lines.any (lineTriggers "NL_REVERSE_CHARGE")) := by
  induction lines generalizing st with
  | nil => simp
  | cons l ls ih =>
    rcases hq : jsNumber l.qty with _ | q
    · have hstep : InvoicePdf.step st l = st := invoicePdf_step_skip st l (Or.inl hq)
      simp [hstep, ih, lineTriggers, goodLine, hq]
    · rcases hp : jsNumber l.unit_price with _ | p
      · have hstep : InvoicePdf.step st l = st := invoicePdf_step_skip st l (Or.inr hp)
        simp [hstep, ih, lineTriggers, goodLine, hq, hp]
      · simp [List.foldl_cons, ih, InvoicePdf.step, hq, hp, lineTriggers, goodLine,
          Bool.or_assoc]

theorem invoicePdf_foldl_hasReverseEu (lines : List InvoicePdf.Line)
    (st : InvoicePdf.CalcState) :
    (List.foldl InvoicePdf.step st lines).hasReverseEu =
      (st.hasReverseEu || lines.any (lineTriggers "EU_B2B_REVERSE_CHARGE")) := by
  induction lines generalizing st with
  | nil => simp
  | cons l ls ih =>
    rcases hq : jsNumber l.qty with _ | q
    · have hstep : InvoicePdf.step st l = st := invoicePdf_step_skip st l (Or.inl hq)
      simp [hstep, ih, lineTriggers, goodLine, hq]
    · rcases hp : jsNumber l.unit_price with _ | p
      · have hstep : InvoicePdf.step st l = st := invoicePdf_step_skip st l (Or.inr hp)
        simp [hstep, ih, lineTriggers, goodLine, hq, hp]
      · simp [List.foldl_cons, ih, InvoicePdf.step, hq, hp, lineTriggers, goodLine,
          Bool.or_assoc]

theorem invoicePdf_foldl_hasOutsideEu (lines : List InvoicePdf.Line)
    (st : InvoicePdf.CalcState) :
    (List.foldl InvoicePdf.step st lines).hasOutsideEu =
      (st.hasOutsideEu || lines.any (lineTriggers "NON_EU_OUTSIDE_SCOPE")) := by
  induction lines generalizing st with
  | nil => simp
  | cons l ls ih =>
    rcases hq : jsNumber l.qty with _ | q
    · have hstep : InvoicePdf.step st l = st := invoicePdf_step_skip st l (Or.inl hq)
      simp [hstep, ih, lineTriggers, goodLine, hq]
    · rcases hp : jsNumber l.unit_price with _ | p
      · have hstep : InvoicePdf.step st l = st := invoicePdf_step_skip st l (Or.inr hp)
        simp [hstep, ih, lineTriggers, goodLine, hq, hp]
      · simp [List.foldl_cons, ih, InvoicePdf.step, hq, hp, lineTriggers, goodLine,
          Bool.or_assoc]

theorem quoteDetail_foldl_subtotal (items : List QuoteDetail.QuoteItem) (d : ℚ)
    (st : QuoteDetail.PageState) :
    (List.foldl (QuoteDetail.step d) st items).subtotal =
      List.foldl (fun s it => round2 (s + round2 (it.qty * it.unit_price))) st.subtotal
        items := by
  induction items generalizing st with
  | nil => rfl
  | cons it its ih =>
    simp only [List.foldl_cons, ih]
    congr 1

theorem quoteDetail_foldl_hasReverseNl (items : List QuoteDetail.QuoteItem) (d : ℚ)
    (st : QuoteDetail.PageState) :
    (List.foldl (QuoteDetail.step d) st items).hasReverseNl =
      (st.hasReverseNl || items.any (itemTriggers "NL_REVERSE_CHARGE")) := by
  induction items generalizing st with
  | nil => simp
  | cons it its ih =>
    simp [List.foldl_cons, ih, QuoteDetail.step, itemTriggers, Bool.or_assoc]

theorem quoteDetail_foldl_hasReverseEu (items : List QuoteDetail.QuoteItem) (d : ℚ)
    (st : QuoteDetail.PageState) :
    (List.foldl (QuoteDetail.step d) st items).hasReverseEu =
      (st.hasReverseEu || items.any (itemTriggers "EU_B2B_REVERSE_CHARGE")) := by
  induction items generalizing st with
  | nil => simp
  | cons it its ih =>
    simp [List.foldl_cons, ih, QuoteDetail.step, itemTriggers, Bool.or_assoc]

theorem quoteDetail_foldl_hasOutsideEu (items : List QuoteDetail.QuoteItem) (d : ℚ)
    (st : QuoteDetail.PageState) :
    (List.foldl (QuoteDetail.step d) st items).hasOutsideEu =
      (st.hasOutsideEu || items.any (itemTriggers "NON_EU_OUTSIDE_SCOPE")) := by
  induction items generalizing st with
  | nil => simp
  | cons it its ih =>
    simp [List.foldl_cons, ih, QuoteDetail.step, itemTriggers, Bool.or_assoc]

theorem quotesList_itemStep_skip (st : ℚ × ℚ) (it : QuotesList.QuoteItemRow)
    (h : toNumber it.qty = none ∨ toNumber it.unit_price = none) :
    QuotesList.itemStep st it = st := by
  rcases h with h | h
  · simp [QuotesList.itemStep, h]
  · rcases hq : toNumber it.qty with _ | q <;> simp [QuotesList.itemStep, hq, h]

theorem invoiceDetail_step_vat_type (d : ℚ) (m : Bool) (st : ℚ × ℚ × List Row)
    (it : InvoiceDetail.InvoiceItem) (t : Option String) :
    InvoiceDetail.step d m st ⟨it.qty, it.unit_price, it.vat_rate, t⟩ =
      InvoiceDetail.step d m st it := rfl

end Buildaroq

namespace Buildaroq

/-- C1: for every line whose VAT treatment is NL_REVERSE_CHARGE,
EU_B2B_REVERSE_CHARGE or NON_EU_OUTSIDE_SCOPE, and for every value of the
stored rate override and of the fallback default rate, the effective rate
computed by `resolveVatRate` is exactly 0 — in all three implementations
(invoice PDF route, quotes list page, quote detail page). -/
theorem zero_rate_dominance (vt : String)
    (h : vt = "NL_REVERSE_CHARGE" ∨ vt = "EU_B2B_REVERSE_CHARGE" ∨
      vt = "NON_EU_OUTSIDE_SCOPE")
    (vr : JsVal) (vrq : Option ℚ) (d dq : ℚ) :
    InvoicePdf.resolveVatRate vt vr = 0 ∧ QuotesList.resolveVatRate vt vr d = 0 ∧
      QuoteDetail.resolveVatRate vt vrq dq = 0 := by
  have hz : isZeroVatType vt = true := by
    rcases h with h | h | h <;> simp [isZeroVatType, h]
  exact ⟨by simp [InvoicePdf.resolveVatRate, hz], by simp [QuotesList.resolveVatRate, hz],
    by simp [QuoteDetail.resolveVatRate, hz]⟩

/-- Witness for `zero_rate_dominance` at a concrete treatment, override and
default rate. -/
theorem zero_rate_dominance_witness :
    InvoicePdf.resolveVatRate "EU_B2B_REVERSE_CHARGE" (.num 21) = 0 ∧
      QuotesList.resolveVatRate "EU_B2B_REVERSE_CHARGE" (.num 21) 5 = 0 ∧
      QuoteDetail.resolveVatRate "EU_B2B_REVERSE_CHARGE" (some 21) 7 = 0 :=
  zero_rate_dominance "EU_B2B_REVERSE_CHARGE" (Or.inr (Or.inl rfl)) (.num 21) (some 21) 5 7

/-- C2: evaluation of the code at the failing inputs.  In the invoice PDF
route's `resolveVatRate` a `null` override is coerced by `Number(null)` to
0, which is finite and ≥ 0, so a StandardRate (NL_21) or ReducedRate
(NL_9_WONING) line with an absent (null) override gets effective rate 0
instead of the fixed default 21 / 9; the quotes list page behaves the same
(its `toNumber` maps both `null` and `undefined` to 0), while the quote
detail page's variant preserves an absent override and returns the
defaults, as the claim states. -/
theorem null_override_coerced_to_zero :
    InvoicePdf.resolveVatRate "NL_21" .null = 0 ∧
      InvoicePdf.resolveVatRate "NL_9_WONING" .null = 0 ∧
      QuotesList.resolveVatRate "NL_21" .null 21 = 0 ∧
      QuotesList.resolveVatRate "NL_9_WONING" .undef 21 = 0 ∧
      QuoteDetail.resolveVatRate "NL_21" none 21 = 21 ∧
      QuoteDetail.resolveVatRate "NL_9_WONING" none 21 = 9 := by
  refine ⟨?_, ?_, ?_, ?_, ?_, ?_⟩ <;>
    simp [InvoicePdf.resolveVatRate, QuotesList.resolveVatRate, QuoteDetail.resolveVatRate,
      isZeroVatType, jsNumber, toNumber]

/-- C3 counterexample: `round2` is not round-half-away-from-zero on negative
half-cent inputs; `Math.round` resolves ties toward +∞, so
round2(-0.005) = 0 (not -0.01) and round2(-2.125) = -2.12 (not -2.13). -/
theorem round2_not_half_away_from_zero :
    round2 (-(1 / 200)) ≠ round2HalfAwayFromZero (-(1 / 200)) ∧
      round2 (-(1 / 200)) = 0 ∧ round2HalfAwayFromZero (-(1 / 200)) = -(1 / 100) ∧
      round2 (-(17 / 8)) = -(53 / 25) ∧
      round2HalfAwayFromZero (-(17 / 8)) = -(213 / 100) := by
  refine ⟨?_, ?_, ?_, ?_, ?_⟩ <;> norm_num [round2, round2HalfAwayFromZero]

/-- C3 amended: `round2` agrees with round-half-away-from-zero at 2 decimal
places on every nonnegative input with at most 3 decimal places (so for all
nonnegative monetary inputs, half-cent ties included); on negative half-cent
inputs the result instead moves toward +∞: round2(-0.005) = 0 and
round2(-2.125) = -2.12. -/
theorem round2_half_up_characterization (m : ℕ) :
    round2 ((m : ℚ) / 1000) = round2HalfAwayFromZero ((m : ℚ) / 1000) ∧
      round2 (-(1 / 200)) = 0 ∧ round2 (-(17 / 8)) = -(53 / 25) := by
  refine ⟨?_, by norm_num [round2], by norm_num [round2]⟩
  have harg : ((m : ℚ) / 1000 + 1 / 2 ^ 52) * 100 + 1 / 2 =
      ((m + 5 : ℕ) : ℚ) / 10 + 100 / 2 ^ 52 := by push_cast; ring
  have harg2 : ((m : ℚ) / 1000) * 100 + 1 / 2 = ((m + 5 : ℕ) : ℚ) / 10 + 0 := by
    push_cast; ring
  have hpos : (0 : ℚ) ≤ (m : ℚ) / 1000 := by positivity
  rw [round2, round2HalfAwayFromZero, if_pos hpos, harg, harg2,
    floor_natCast_div_ten_add _ _ (by positivity) (by norm_num),
    floor_natCast_div_ten_add _ _ le_rfl (by norm_num)]

/-- C10: for every subtotal ≤ 0 and every VAT rate and inclusive/exclusive
flag, the dashboard's `calcTotals` returns vatAmount = 0 and total = 0. -/
theorem dashboard_nonpositive_subtotal (s r : ℚ) (b : Bool) (h : s ≤ 0) :
    (Dashboard.calcTotals s r b).vatAmount = 0 ∧ (Dashboard.calcTotals s r b).total = 0 := by
  simp [Dashboard.calcTotals, h]

/-- Witness for `dashboard_nonpositive_subtotal` at a concrete negative
subtotal. -/
theorem dashboard_nonpositive_subtotal_witness :
    (Dashboard.calcTotals (-5) 21 true).vatAmount = 0 ∧
      (Dashboard.calcTotals (-5) 21 true).total = 0 :=
  dashboard_nonpositive_subtotal (-5) 21 true (by norm_num)

end Buildaroq

namespace Buildaroq

/-- C4: one line with quantity 1, unit price 121.00 and rate 21 percent
(StandardRate): with prices inclusive of tax the aggregation returns
base 100.00, vat 21.00, total 121.00; with prices exclusive of tax it
returns base 121.00, vat 25.41, total 146.41 (the always-exclusive
`calcTotals` of the invoice PDF route agrees with the exclusive case). -/
theorem inclusive_exclusive_round_trip :
    InvoiceDetail.computeVatBreakdown [⟨.num 1, .num 121, some 21, some "NL_21"⟩] 21 true =
        ⟨100, 121, 21, [⟨21, 100, 21⟩]⟩ ∧
      InvoiceDetail.computeVatBreakdown [⟨.num 1, .num 121, some 21, some "NL_21"⟩] 21 false =
        ⟨121, 14641 / 100, 2541 / 100, [⟨21, 121, 2541 / 100⟩]⟩ ∧
      InvoicePdf.calcTotals [⟨.num 1, .num 121, some "NL_21", .num 21⟩] =
        ⟨121, 2541 / 100, 14641 / 100, [⟨21, 121, 2541 / 100⟩], []⟩ := by
  refine ⟨?_, ?_, ?_⟩
  · simp [InvoiceDetail.computeVatBreakdown, InvoiceDetail.step, jsNumber, updateRow,
      sortRows, insertRow, reduceVat]
    norm_num [round2]
  · simp [InvoiceDetail.computeVatBreakdown, InvoiceDetail.step, jsNumber, updateRow,
      sortRows, insertRow, reduceVat]
    norm_num [round2]
  · simp [InvoicePdf.calcTotals, InvoicePdf.step, jsNumber, InvoicePdf.resolveVatRate,
      isZeroVatType, updateRow, sortRows, insertRow, reduceVat]
    norm_num [round2]

/-- C5: for every list of input lines, the computed totals satisfy
vat amount = round2(sum of the breakdown rows' vat) and
total = round2(subtotal + vat amount), in the invoice PDF route's
`calcTotals` and in the quote detail page's totals. -/
theorem breakdown_footing_invariant (lines : List InvoicePdf.Line)
    (items : List QuoteDetail.QuoteItem) (d : ℚ) :
    ((InvoicePdf.calcTotals lines).vat_amount =
        round2 (((InvoicePdf.calcTotals lines).vat_breakdown.map Row.vat).sum) ∧
      (InvoicePdf.calcTotals lines).total =
        round2 ((InvoicePdf.calcTotals lines).subtotal +
          (InvoicePdf.calcTotals lines).vat_amount)) ∧
      ((QuoteDetail.pageTotals items d).vatAmount =
        round2 (((QuoteDetail.pageTotals items d).vatBreakdown.map Row.vat).sum) ∧
      (QuoteDetail.pageTotals items d).total =
        round2 ((QuoteDetail.pageTotals items d).subtotal +
          (QuoteDetail.pageTotals items d).vatAmount)) := by
  refine ⟨⟨?_, rfl⟩, ⟨?_, rfl⟩⟩
  · simp only [InvoicePdf.calcTotals]
    rw [reduceVat_eq_sum, sum_vat_sortRows]
  · simp only [QuoteDetail.pageTotals]
    rw [reduceVat_eq_sum]

/-- C6 counterexample: the quote PDF route's subtotal is a raw unrounded
reduce of quantity times unit price; on the single line 1 × 0.004 it yields
0.004, while the cumulatively rounded left fold described by the claim
yields 0. -/
theorem quote_pdf_subtotal_not_cumulative :
    QuotePdf.subtotal [⟨1, 1 / 250⟩] ≠
      List.foldl (fun s it => round2 (s + round2 (it.qty * it.unit_price))) 0
        [(⟨1, 1 / 250⟩ : QuotePdf.PdfItem)] := by
  simp [QuotePdf.subtotal]
  norm_num [round2]

/-- C6 amended: the cumulative-rounding description of the subtotal holds
for the multi-rate aggregations — the invoice PDF route's `calcTotals`
(over the lines surviving the finiteness skip, in input order) and the
quote detail page's totals — and cumulative rounding genuinely differs
from a single end-rounding of the raw sum; but it does not hold for the
quote PDF route, whose subtotal is an unrounded raw sum
(`quote_pdf_subtotal_not_cumulative`). -/
theorem subtotal_cumulative_rounding (lines : List InvoicePdf.Line)
    (items : List QuoteDetail.QuoteItem) (d : ℚ) :
    (InvoicePdf.calcTotals lines).subtotal =
        List.foldl
          (fun s l =>
            round2 (s + round2 ((jsNumber l.qty).getD 0 * (jsNumber l.unit_price).getD 0)))
          0 (lines.filter goodLine) ∧
      (QuoteDetail.pageTotals items d).subtotal =
        List.foldl (fun s it => round2 (s + round2 (it.qty * it.unit_price))) 0 items ∧
      (InvoicePdf.calcTotals
          (List.replicate 3 ⟨.num 1, .num (1 / 250), none, .null⟩)).subtotal ≠
        round2 (((List.replicate 3 (⟨.num 1, .num (1 / 250), none, .null⟩ :
            InvoicePdf.Line)).map
          (fun l => (jsNumber l.qty).getD 0 * (jsNumber l.unit_price).getD 0)).sum) := by
  refine ⟨?_, ?_, ?_⟩
  · simpa using invoicePdf_foldl_subtotal lines ⟨0, [], false, false, false⟩
  · simpa using quoteDetail_foldl_subtotal items d ⟨0, [], false, false, false⟩
  · simp [InvoicePdf.calcTotals, InvoicePdf.step, jsNumber, InvoicePdf.resolveVatRate,
      isZeroVatType, updateRow, List.replicate]
    norm_num [round2]

end Buildaroq

namespace Buildaroq

/-- C7 counterexample: the emitted notice strings are the Dutch UI texts,
not the English texts named by the claim — a document with one domestic
reverse-charge line emits "BTW verlegd (onderaanneming/bouw)." and not
"VAT reverse-charged (subcontracting/construction).". -/
theorem notices_not_spec_english_text :
    (InvoicePdf.calcTotals [⟨.num 1, .num 500, some "NL_REVERSE_CHARGE", .null⟩]).notices ≠
      ["VAT reverse-charged (subcontracting/construction)."] := by
  simp [InvoicePdf.calcTotals, InvoicePdf.step, jsNumber, InvoicePdf.resolveVatRate,
    isZeroVatType, updateRow, sortRows, insertRow, reduceVat, InvoicePdf.noticeReverseNl]

/-- C7 amended: in the invoice PDF route's `calcTotals` and in the quote
detail page's totals, each notice appears at most once regardless of how
many lines trigger it, the list is ordered domestic reverse charge first,
then intra-EU, then outside-scope (a sublist of the full three-notice
list, empty when nothing is triggered), and a notice is present exactly
when some aggregated line carries the corresponding treatment; the emitted
strings are the Dutch texts "BTW verlegd (onderaanneming/bouw).",
"BTW verlegd – intracommunautaire dienst (EU B2B)." and
"Plaats van dienst buiten Nederland (buiten EU)." — not the English texts
given in the claim. -/
theorem notices_deduplicated_and_ordered (lines : List InvoicePdf.Line)
    (items : List QuoteDetail.QuoteItem) (d : ℚ) :
    ((InvoicePdf.calcTotals lines).notices.Sublist
        [InvoicePdf.noticeReverseNl, InvoicePdf.noticeReverseEu,
          InvoicePdf.noticeOutsideEu] ∧
      (InvoicePdf.noticeReverseNl ∈ (InvoicePdf.calcTotals lines).notices ↔
        lines.any (lineTriggers "NL_REVERSE_CHARGE") = true) ∧
      (InvoicePdf.noticeReverseEu ∈ (InvoicePdf.calcTotals lines).notices ↔
        lines.any (lineTriggers "EU_B2B_REVERSE_CHARGE") = true) ∧
      (InvoicePdf.noticeOutsideEu ∈ (InvoicePdf.calcTotals lines).notices ↔
        lines.any (lineTriggers "NON_EU_OUTSIDE_SCOPE") = true)) ∧
      ((QuoteDetail.pageTotals items d).notices.Sublist
        [InvoicePdf.noticeReverseNl, InvoicePdf.noticeReverseEu,
          InvoicePdf.noticeOutsideEu] ∧
      (InvoicePdf.noticeReverseNl ∈ (QuoteDetail.pageTotals items d).notices ↔
        items.any (itemTriggers "NL_REVERSE_CHARGE") = true) ∧
      (InvoicePdf.noticeReverseEu ∈ (QuoteDetail.pageTotals items d).notices ↔
        items.any (itemTriggers "EU_B2B_REVERSE_CHARGE") = true) ∧
      (InvoicePdf.noticeOutsideEu ∈ (QuoteDetail.pageTotals items d).notices ↔
        items.any (itemTriggers "NON_EU_OUTSIDE_SCOPE") = true)) := by
  have hab : InvoicePdf.noticeReverseNl ≠ InvoicePdf.noticeReverseEu := by
    simp [InvoicePdf.noticeReverseNl, InvoicePdf.noticeReverseEu]
  have hac : InvoicePdf.noticeReverseNl ≠ InvoicePdf.noticeOutsideEu := by
    simp [InvoicePdf.noticeReverseNl, InvoicePdf.noticeOutsideEu]
  have hbc : InvoicePdf.noticeReverseEu ≠ InvoicePdf.noticeOutsideEu := by
    simp [InvoicePdf.noticeReverseEu, InvoicePdf.noticeOutsideEu]
  have h1 : (List.foldl InvoicePdf.step ⟨0, [], false, false, false⟩ lines).hasReverseNl =
      lines.any (lineTriggers "NL_REVERSE_CHARGE") := by
    simpa using invoicePdf_foldl_hasReverseNl lines ⟨0, [], false, false, false⟩
  have h2 : (List.foldl InvoicePdf.step ⟨0, [], false, false, false⟩ lines).hasReverseEu =
      lines.any (lineTriggers "EU_B2B_REVERSE_CHARGE") := by
    simpa using invoicePdf_foldl_hasReverseEu lines ⟨0, [], false, false, false⟩
  have h3 : (List.foldl InvoicePdf.step ⟨0, [], false, false, false⟩ lines).hasOutsideEu =
      lines.any (lineTriggers "NON_EU_OUTSIDE_SCOPE") := by
    simpa using invoicePdf_foldl_hasOutsideEu lines ⟨0, [], false, false, false⟩
  have q1 : (List.foldl (QuoteDetail.step d) ⟨0, [], false, false, false⟩ items).hasReverseNl =
      items.any (itemTriggers "NL_REVERSE_CHARGE") := by
    simpa using quoteDetail_foldl_hasReverseNl items d ⟨0, [], false, false, false⟩
  have q2 : (List.foldl (QuoteDetail.step d) ⟨0, [], false, false, false⟩ items).hasReverseEu =
      items.any (itemTriggers "EU_B2B_REVERSE_CHARGE") := by
    simpa using quoteDetail_foldl_hasReverseEu items d ⟨0, [], false, false, false⟩
  have q3 : (List.foldl (QuoteDetail.step d) ⟨0, [], false, false, false⟩ items).hasOutsideEu =
      items.any (itemTriggers "NON_EU_OUTSIDE_SCOPE") := by
    simpa using quoteDetail_foldl_hasOutsideEu items d ⟨0, [], false, false, false⟩
  refine ⟨⟨?_, ?_, ?_, ?_⟩, ⟨?_, ?_, ?_, ?_⟩⟩
  · simp only [InvoicePdf.calcTotals]
    rw [h1, h2, h3]
    exact sublist_triple _ _ _ _ _ _
  · simp only [InvoicePdf.calcTotals]
    rw [h1, h2, h3]
    exact mem_triple_left _ _ _ _ _ _ hab hac
  · simp only [InvoicePdf.calcTotals]
    rw [h1, h2, h3]
    exact mem_triple_mid _ _ _ _ _ _ hab.symm hbc
  · simp only [InvoicePdf.calcTotals]
    rw [h1, h2, h3]
    exact mem_triple_right _ _ _ _ _ _ hac.symm hbc.symm
  · simp only [QuoteDetail.pageTotals]
    rw [q1, q2, q3]
    exact sublist_triple _ _ _ _ _ _
  · simp only [QuoteDetail.pageTotals]
    rw [q1, q2, q3]
    exact mem_triple_left _ _ _ _ _ _ hab hac
  · simp only [QuoteDetail.pageTotals]
    rw [q1, q2, q3]
    exact mem_triple_mid _ _ _ _ _ _ hab.symm hbc
  · simp only [QuoteDetail.pageTotals]
    rw [q1, q2, q3]
    exact mem_triple_right _ _ _ _ _ _ hac.symm hbc.symm

/-- C8: a line whose quantity or unit price does not coerce to a finite
number is excluded from aggregation wherever it sits in the input — in the
invoice PDF route's `calcTotals` and in the quotes list page's
`calcTotalFromItems` — and a document with one valid line (qty 1, price 50,
NL_21 at 21 percent) plus one line with non-numeric quantity yields exactly
the single-valid-line totals (the computation is a total function, so it
never raises). -/
theorem malformed_line_skip :
    (∀ (pre post : List InvoicePdf.Line) (l : InvoicePdf.Line),
        jsNumber l.qty = none ∨ jsNumber l.unit_price = none →
          InvoicePdf.calcTotals (pre ++ l :: post) = InvoicePdf.calcTotals (pre ++ post)) ∧
      (∀ (pre post : List QuotesList.QuoteItemRow) (it : QuotesList.QuoteItemRow),
        toNumber it.qty = none ∨ toNumber it.unit_price = none →
          QuotesList.calcTotalFromItems (pre ++ it :: post) =
            QuotesList.calcTotalFromItems (pre ++ post)) ∧
      InvoicePdf.calcTotals
          [⟨.num 1, .num 50, some "NL_21", .num 21⟩,
            ⟨.nan, .num 10, some "NL_21", .num 21⟩] =
        ⟨50, 21 / 2, 121 / 2, [⟨21, 50, 21 / 2⟩], []⟩ ∧
      InvoicePdf.calcTotals [⟨.num 1, .num 50, some "NL_21", .num 21⟩] =
        ⟨50, 21 / 2, 121 / 2, [⟨21, 50, 21 / 2⟩], []⟩ := by
  refine ⟨?_, ?_, ?_, ?_⟩
  · intro pre post l h
    have hskip : ∀ st, InvoicePdf.step st l = st := fun st => invoicePdf_step_skip st l h
    simp only [InvoicePdf.calcTotals, List.foldl_append, List.foldl_cons, hskip]
  · intro pre post it h
    have hskip : ∀ st, QuotesList.itemStep st it = st := fun st =>
      quotesList_itemStep_skip st it h
    simp only [QuotesList.calcTotalFromItems, List.foldl_append, List.foldl_cons, hskip]
  · simp [InvoicePdf.calcTotals, InvoicePdf.step, jsNumber, InvoicePdf.resolveVatRate,
      isZeroVatType, updateRow, sortRows, insertRow, reduceVat]
    norm_num [round2]
  · simp [InvoicePdf.calcTotals, InvoicePdf.step, jsNumber, InvoicePdf.resolveVatRate,
      isZeroVatType, updateRow, sortRows, insertRow, reduceVat]
    norm_num [round2]

/-- Witness for `malformed_line_skip`: dropping a concrete line with
non-numeric quantity from a concrete two-line document leaves the totals
unchanged. -/
theorem malformed_line_skip_witness :
    InvoicePdf.calcTotals
        ([⟨.num 1, .num 50, some "NL_21", .num 21⟩] ++
          (⟨.nan, .num 10, some "NL_21", .num 21⟩ : InvoicePdf.Line) :: []) =
      InvoicePdf.calcTotals ([⟨.num 1, .num 50, some "NL_21", .num 21⟩] ++ []) :=
  malformed_line_skip.1 [⟨.num 1, .num 50, some "NL_21", .num 21⟩] []
    ⟨.nan, .num 10, some "NL_21", .num 21⟩ (Or.inl rfl)

/-- C9: the invoice detail page's `computeVatBreakdown` never consults the
VAT-treatment tag — rewriting every item's `vat_type` arbitrarily leaves the
result unchanged — and the effective rate is the stored `vat_rate` when
non-null, else the default: a reverse-charge item with stored rate 21 is
taxed at 21 even with default rate 0, and an item with null stored rate is
taxed at the default rate. -/
theorem breakdown_ignores_vat_treatment (items : List InvoiceDetail.InvoiceItem)
    (d : ℚ) (m : Bool) (f : InvoiceDetail.InvoiceItem → Option String) :
    InvoiceDetail.computeVatBreakdown
        (items.map fun it => ⟨it.qty, it.unit_price, it.vat_rate, f it⟩) d m =
      InvoiceDetail.computeVatBreakdown items d m ∧
      InvoiceDetail.computeVatBreakdown
          [⟨.num 1, .num 100, some 21, some "NL_REVERSE_CHARGE"⟩] 0 false =
        ⟨100, 121, 21, [⟨21, 100, 21⟩]⟩ ∧
      InvoiceDetail.computeVatBreakdown [⟨.num 1, .num 100, none, some "NL_21"⟩] 21 false =
        ⟨100, 121, 21, [⟨21, 100, 21⟩]⟩ := by
  refine ⟨?_, ?_, ?_⟩
  · have hfun : (fun (st : ℚ × ℚ × List Row) (it : InvoiceDetail.InvoiceItem) =>
        InvoiceDetail.step d m st ⟨it.qty, it.unit_price, it.vat_rate, f it⟩) =
          fun st it => InvoiceDetail.step d m st it := by
      funext st it
      exact invoiceDetail_step_vat_type d m st it (f it)
    simp only [InvoiceDetail.computeVatBreakdown, List.foldl_map, hfun]
  · simp [InvoiceDetail.computeVatBreakdown, InvoiceDetail.step, jsNumber, updateRow,
      sortRows, insertRow, reduceVat]
    norm_num [round2]
  · simp [InvoiceDetail.computeVatBreakdown, InvoiceDetail.step, jsNumber, updateRow,
      sortRows, insertRow, reduceVat]
    norm_num [round2]

end Buildaroq
